import Mathlib

/-!
Verification of the pynstal (PythonProjectManager) configuration store and
command-execution pipeline, shallowly embedded from
`src/pythonprojectmanager/{main.py, create_venv.py, handle_data.py}`.

Conventions of the embedding:
* Python `str` values become `String`; optional values become `Option String`.
* Python truthiness of a string (`if s:`) is `s ≠ ""`; of an optional string
  it additionally requires presence; of a list it is non-emptiness.
* Filesystem queries (`os.path.isfile`, `os.path.exists`) and path resolution
  (`os.path.abspath`) are environment parameters (`isfile`, `pathExists`,
  `abspath`): the model is a function of the ambient filesystem.
* Subprocess execution is an oracle `exec : List String → ProcResult` mapping
  a command vector to its outcome (exit with captured output lines, or a
  spawn exception).  Every spawned command is recorded in a trace so that
  "no subprocess is spawned" is a provable statement.
* JSON persistence is modelled by returning the would-be-saved state together
  with a `Bool` flag recording whether `save` was invoked.
-/

namespace Pynstal

/-- Python truthiness of a `str`. -/
def strTruthy (s : String) : Bool := s ≠ ""

/-- Python truthiness of an optional `str` (`None` and `""` are falsy). -/
def optTruthy : Option String → Bool
  | none => false
  | some s => strTruthy s

/-- Model of Python `str.strip()`: drop whitespace from both ends (written
over the character list so that it evaluates by kernel reduction). -/
def pyStrip (s : String) : String :=
  String.mk (((s.data.dropWhile Char.isWhitespace).reverse.dropWhile
    Char.isWhitespace).reverse)

/-- Model of Python `str.upper()` for the ASCII strings handled here. -/
def pyUpper (s : String) : String := String.mk (s.data.map Char.toUpper)

/-- Decimal digit accumulation for `pyInt?`; `none` when the list is empty
or contains a non-digit. -/
def digitsToNat : List Char → Option Nat
  | [] => none
  | l => l.foldl (fun acc c =>
      match acc with
      | none => none
      | some n => if c.isDigit then some (n * 10 + (c.toNat - 48)) else none)
      (some 0)

/-- Model of Python `int(s)` on an already-stripped string: an optional
sign followed by decimal digits, `none` (a `ValueError`) otherwise. -/
def pyInt? (s : String) : Option Int :=
  match s.data with
  | [] => none
  | c :: rest =>
      if c = Char.ofNat 45 then (digitsToNat rest).map (fun n => -(n : Int))
      else if c = Char.ofNat 43 then (digitsToNat rest).map (fun n => (n : Int))
      else (digitsToNat (c :: rest)).map (fun n => (n : Int))

/-- Model of Python `s.startswith(t)`. -/
def pyStartswith (s t : String) : Bool := t.data.isPrefixOf s.data

/-- The global interpreter registry persisted in `interpreters.json`
(`handle_data.InterpretersData`): both fields may be absent (`null`). -/
structure InterpretersData where
  interpreters : Option (List String)
  default_interpreter : Option String
deriving Repr, DecidableEq

/-- The load step of `handle_data.InterpretersData.__init__`: the parsed
contents of `interpreters.json` when the file exists (each field `None` when
its key is missing), or the all-`None` state when it does not. -/
def loadInterpretersFile :
    Option (Option (List String) × Option String) → InterpretersData
  | some (i, d) => ⟨i, d⟩
  | none => ⟨none, none⟩

/-- Model of `handle_data.InterpretersData.__init__`: load the registry (the parsed
file contents, or `none` when the file is absent) and lazily migrate: when
the default interpreter is falsy and the currently running executable
(`sys.executable`) is a truthy path to an existing file, insert it at the
front of the interpreter list if absent, make it the default, and persist.
Returns the in-memory state and whether `save` was called. -/
def InterpretersData.init (fileContents : Option (Option (List String) × Option String))
    (sys_executable : String) (isfile : String → Bool) :
    InterpretersData × Bool :=
  let st : InterpretersData := loadInterpretersFile fileContents
  if ¬ optTruthy st.default_interpreter ∧ strTruthy sys_executable ∧ isfile sys_executable then
    let interpreters' :=
      match st.interpreters with
      | none => [sys_executable]
      | some l => if sys_executable ∈ l then l else sys_executable :: l
    (⟨some interpreters', some sys_executable⟩, true)
  else
    (st, false)

/-- Model of `main.cmd_add_interpreter`: append `path` to the interpreter list unless
already present (initialising the list to `[]` when it is `None`).  Returns
the resulting registry and whether `save` was called. -/
def cmd_add_interpreter (st : InterpretersData) (path : String) :
    InterpretersData × Bool :=
  let l := st.interpreters.getD []
  if path ∈ l then
    ({ st with interpreters := some l }, false)
  else
    ({ st with interpreters := some (l ++ [path]) }, true)

/-- Model of `main.choose_interpreter`: resolve the interpreter for venv creation.
A truthy explicit argument is returned verbatim.  Otherwise the default is
the project-local default when truthy, else the global default; when both the
registered list and that default are falsy the result is `None`.  Otherwise
the user is prompted (`user_input` is what they typed): empty input selects
the default, `D` selects the default, a 1-based index selects from the
registered list, anything else yields `None`. -/
def choose_interpreter (interpreter_arg : Option String)
    (project_default : Option String) (st : InterpretersData)
    (user_input : String) : Option String :=
  if optTruthy interpreter_arg then interpreter_arg
  else
    let default := if optTruthy project_default then project_default
                   else st.default_interpreter
    let interpreters := st.interpreters.getD []
    if interpreters.isEmpty ∧ ¬ optTruthy default then none
    else
      let choice := pyStrip user_input
      if choice = "" then default
      else if pyUpper choice = "D" ∧ optTruthy default then default
      else
        match pyInt? choice with
        | some n =>
            if 0 ≤ n - 1 ∧ n - 1 < (interpreters.length : Int) then
              interpreters.get? (n - 1).toNat
            else none
        | none => none

/-- The interpreter-resolution prologue of `main.cmd_install` (no prompt):
a truthy explicit argument wins, else the project default when truthy, else
the global default when truthy, else `sys.executable`; a still-falsy result
is a hard stop (`None`, exit code 2 in the caller). -/
def cmd_install_resolve (interpreter_arg : Option String)
    (project_default : Option String) (global_default : Option String)
    (sys_executable : String) : Option String :=
  let interpreter :=
    if optTruthy interpreter_arg then interpreter_arg
    else
      let i := if optTruthy project_default then project_default else global_default
      if optTruthy i then i else some sys_executable
  if optTruthy interpreter then interpreter else none

/-! ## Package installer (`create_venv.install_packages`) -/

/-- Outcome of one subprocess invocation: the process ran and exited with
`returncode` after emitting `outLines` (combined stdout+stderr, one string
per line, already stripped of the trailing newline), or spawning raised an
exception with message `msg` (no output captured). -/
inductive ProcResult where
  | ok (returncode : Int) (outLines : List String)
  | exn (msg : String)
deriving Repr, DecidableEq

/-- A JSON value that may sit in the `packages`/`package` field of a compound
package entry: a plain string or a list of strings. -/
abbrev StrOrList := String ⊕ List String

/-- Python truthiness of an optional str-or-list field (`None`, `""` and
`[]` are falsy). -/
def solTruthy : Option StrOrList → Bool
  | none => false
  | some (.inl s) => s ≠ ""
  | some (.inr l) => ¬ l.isEmpty

/-- One entry of a package specification list as `install_packages`
distinguishes them: a plain string, a dict (with its `packages`, `package`
and `args` fields as the code reads them), or a value of any other type
(skipped by the code). -/
inductive PkgEntry where
  | pstr (s : String)
  | pdict (packages : Option StrOrList) (package : Option StrOrList)
      (args : Option (List String))
  | other
deriving Repr, DecidableEq

/-- Wrap a plain string: `if isinstance(pkg_list, str): pkg_list = [pkg_list]`. -/
def toPkgList : StrOrList → List String
  | .inl s => [s]
  | .inr l => l

/-- The per-entry normalisation at the top of the loop body of
`install_packages`: a string entry becomes a one-package list with no extra
args; a dict entry takes `packages` or `package` (first truthy, else `[]`,
wrapping a plain string) and `args` (defaulting to `[]`); any other entry
yields `none` (the code skips it with `continue`). -/
def entryFields : PkgEntry → Option (List String × List String)
  | .pstr s => some ([s], [])
  | .pdict packages package args =>
      let raw : StrOrList :=
        if solTruthy packages then packages.getD (.inr [])
        else if solTruthy package then package.getD (.inr [])
        else .inr []
      some (toPkgList raw, args.getD [])
  | .other => none

/-- An ASCII single-quote character as a string (code point 39). -/
def pyQuote : String := (Char.ofNat 39).toString

/-- Python `repr` of a quote-free `str` (the command vectors built here never
contain a quote character). -/
def pyStrRepr (s : String) : String := pyQuote ++ s ++ pyQuote

/-- Python `repr`/f-string interpolation of a `list[str]`. -/
def pyListRepr (l : List String) : String :=
  "[" ++ String.intercalate ", " (l.map pyStrRepr) ++ "]"

/-- The line appended for one entry in dry-run mode:
`f"DRY RUN: would run: {cmd}"`. -/
def dryRunMsg (cmd : List String) : String :=
  "DRY RUN: would run: " ++ pyListRepr cmd

/-- The pip command vector built for one valid entry:
`[abs_interpreter, "-m", "pip", "install"] + pkg_list + extra_args`
(`none` for an entry the code skips). -/
def entryCmd (abs_interpreter : String) (e : PkgEntry) : Option (List String) :=
  (entryFields e).map fun pa =>
    [abs_interpreter, "-m", "pip", "install"] ++ pa.1 ++ pa.2

/-- Result of `install_packages`: the returned triple, with the two
accumulated-string components kept as the lists the code joins with `"\n"`,
plus the trace of commands actually handed to the process spawner. -/
structure InstallResult where
  success : Bool
  all_stdout : List String
  all_stderr : List String
  spawned : List (List String)
deriving Repr, DecidableEq

/-- The main loop of `install_packages` over the remaining entries, carrying
the `all_stdout`/`all_stderr` accumulators and the spawn trace.  Per entry:
skip unsupported types; in dry-run append the synthesized command description
and continue; otherwise fail fast when the interpreter executable does not
exist (the source returns `(False, "", msg)`, discarding the accumulators);
otherwise spawn.  A run appends the entry's joined output lines; a non-zero
exit appends `"Command exited with <rc>"` and returns failure immediately; a
spawn exception returns failure with the output accumulated so far (the
failing entry contributes none) and the exception message. -/
def installLoop (execProc : List String → ProcResult) (isfile : String → Bool)
    (abs_interpreter : String) (dry_run : Bool) :
    List PkgEntry → List String → List String → List (List String) → InstallResult
  | [], out, err, sp => ⟨true, out, err, sp⟩
  | entry :: rest, out, err, sp =>
    match entryFields entry with
    | none => installLoop execProc isfile abs_interpreter dry_run rest out err sp
    | some pa =>
      let cmd := [abs_interpreter, "-m", "pip", "install"] ++ pa.1 ++ pa.2
      if dry_run then
        installLoop execProc isfile abs_interpreter dry_run rest
          (out ++ [dryRunMsg cmd]) err sp
      else if ¬ isfile abs_interpreter then
        ⟨false, [], ["Interpreter executable not found: " ++ abs_interpreter], sp⟩
      else
        match execProc cmd with
        | .ok rc lines =>
            let out' := out ++ [String.intercalate "\n" lines]
            if rc ≠ 0 then
              ⟨false, out', err ++ ["Command exited with " ++ toString rc], sp ++ [cmd]⟩
            else
              installLoop execProc isfile abs_interpreter dry_run rest out' err
                (sp ++ [cmd])
        | .exn msg => ⟨false, out, [msg], sp ++ [cmd]⟩

/-- Model of `create_venv.install_packages` on a package specification list:
resolve the interpreter with `os.path.abspath` and run the loop with empty
accumulators.  (The source also wraps a bare string/dict argument into a
one-element list; the claims quantify over lists, which pass through that
normalisation unchanged.) -/
def install_packages (execProc : List String → ProcResult)
    (isfile : String → Bool) (abspath : String → String) (interpreter : String)
    (packages : List PkgEntry) (dry_run : Bool) : InstallResult :=
  installLoop execProc isfile (abspath interpreter) dry_run packages [] [] []

/-- The joined per-entry output string a successfully spawned entry
contributes to `all_stdout`. -/
def entryOutStr (execProc : List String → ProcResult) (abs_interpreter : String)
    (e : PkgEntry) : String :=
  match entryCmd abs_interpreter e with
  | some c =>
      match execProc c with
      | .ok _ lines => String.intercalate "\n" lines
      | .exn _ => ""
  | none => ""

/-! ## Template registry (`main.load_templates` / `template add|remove`) -/

/-- Recursion for `pySplit`: walk the characters, accumulating the current
word (reversed) and emitting it at each whitespace boundary. -/
def pySplitAux : List Char → List Char → List String
  | [], [] => []
  | [], acc => [String.mk acc.reverse]
  | c :: rest, acc =>
      if c.isWhitespace then
        match acc with
        | [] => pySplitAux rest []
        | _ => String.mk acc.reverse :: pySplitAux rest []
      else pySplitAux rest (c :: acc)

/-- Model of Python `str.split()` with no argument: split on whitespace runs
and discard empty pieces. -/
def pySplit (s : String) : List String := pySplitAux s.data []

/-- The interactive collection loop of `main.cmd_template_add`: `inputs` is
the successive pairs of answers to "enter package to add" and
"special args".  An empty (stripped) package line ends the loop; with args
given the group is stored as one compound entry, otherwise each
space-separated package becomes its own plain-string entry. -/
def templateAddEntries : List (String × String) → List PkgEntry
  | [] => []
  | (pkg_line, args_line) :: rest =>
      if pyStrip pkg_line = "" then []
      else
        let pkgs := pySplit (pyStrip pkg_line)
        if pyStrip args_line ≠ "" then
          PkgEntry.pdict (some (.inr pkgs)) none
              (some (pySplit (pyStrip args_line))) ::
            templateAddEntries rest
        else
          pkgs.map PkgEntry.pstr ++ templateAddEntries rest

/-- The stored template registry (`data["templates"]`): a JSON object mapped
as an insertion-ordered association list with unique keys. -/
abbrev Templates := List (String × List PkgEntry)

/-- Model of `main.cmd_template_add`: refuse a duplicate name with exit code 2 (no
save), otherwise collect the entries interactively, store them under `name`
and save.  Returns (exit code, stored registry after the command, whether
`save_templates` was called). -/
def cmd_template_add (stored : Templates) (name : String)
    (inputs : List (String × String)) : Int × Templates × Bool :=
  if (stored.lookup name).isSome then (2, stored, false)
  else
    (0, stored ++ [(name, templateAddEntries inputs)], true)

/-- Model of `main.cmd_template_remove`: refuse an absent name with exit code 2 (no
save), otherwise delete the key and save.  (`del templates[name]` on a JSON
object with unique keys is removal of the single matching entry.) -/
def cmd_template_remove (stored : Templates) (name : String) :
    Int × Templates × Bool :=
  if (stored.lookup name).isNone then (2, stored, false)
  else
    (0, stored.filter (fun kv => kv.1 ≠ name), true)

/-- Model of `main.cmd_install`: look up the template (exit 2 when absent), resolve
the interpreter (exit 2 when the resolution is falsy), run
`install_packages`, and map its success to exit code 0 / 1.  The second
component is the installer result (`none` when no installation was
attempted). -/
def cmd_install (stored : Templates) (template : String)
    (interpreter_arg project_default global_default : Option String)
    (sys_executable : String) (execProc : List String → ProcResult)
    (isfile : String → Bool) (abspath : String → String) (dry_run : Bool) :
    Int × Option InstallResult :=
  match stored.lookup template with
  | none => (2, none)
  | some packages =>
    match cmd_install_resolve interpreter_arg project_default global_default
        sys_executable with
    | none => (2, none)
    | some interp =>
        let r := install_packages execProc isfile abspath interp packages dry_run
        (if r.success then 0 else 1, some r)

/-! ## Venv creation (`create_venv.create_venv`) -/

/-- Model of `os.path.join` with a relative second component.  The separator is
modelled as `/`; on Windows the source produces the same shape with the
platform separator, which none of the claims depend on. -/
def pathJoin (a b : String) : String := a ++ "/" ++ b

/-- The platform-conventional interpreter path inside a fresh venv:
`<venv_dir>/Scripts/python.exe` on Windows, `<venv_dir>/bin/python`
elsewhere. -/
def venv_python_of (isWin : Bool) (venv_dir : String) : String :=
  if isWin then pathJoin (pathJoin venv_dir "Scripts") "python.exe"
  else pathJoin (pathJoin venv_dir "bin") "python"

/-- The registration step of `create_venv.create_venv` after a successful
non-dry-run creation: compute the venv's own interpreter path; if it exists
on disk, insert it at the front of the global interpreter list when absent
(creating the list when it was `None`), persist the registry, and set it as
the project-local default interpreter.  Returns (registry, project default,
whether the registry was saved). -/
def create_venv_register (pathExists : String → Bool) (abspath : String → String)
    (isWin : Bool) (venv_dir : String) (st : InterpretersData)
    (project_default : Option String) :
    InterpretersData × Option String × Bool :=
  let venv_python := abspath (venv_python_of isWin venv_dir)
  if pathExists venv_python then
    let interpreters' :=
      match st.interpreters with
      | none => [venv_python]
      | some l => if venv_python ∈ l then l else venv_python :: l
    ({ st with interpreters := some interpreters' }, some venv_python, true)
  else (st, project_default, false)

/-- Model of `create_venv.create_venv` as a state transformer: `procOk` is the exit
status of the `<interpreter> -m venv <dir>` subprocess (`_create_venv`
reports success unconditionally in dry-run mode and performs no state
change); on a real successful creation the registration step runs.
Returns (reported success, registry, project default, registry saved). -/
def create_venv (procOk : Bool) (dry_run : Bool) (pathExists : String → Bool)
    (abspath : String → String) (isWin : Bool) (venv_dir : String)
    (st : InterpretersData) (project_default : Option String) :
    Bool × InterpretersData × Option String × Bool :=
  let success := if dry_run then true else procOk
  if success then
    if dry_run then (true, st, project_default, false)
    else
      let r := create_venv_register pathExists abspath isWin venv_dir st project_default
      (true, r.1, r.2.1, r.2.2)
  else (false, st, project_default, false)

/-! ## Venv removal (`main.cmd_remove_venv`) -/

/-- The lexical containment test the source uses everywhere:
`os.path.abspath(p).startswith(os.path.abspath(venv_dir))`. -/
def insideVenv (abspath : String → String) (venv_dir p : String) : Bool :=
  pyStartswith (abspath p) (abspath venv_dir)

/-- Model of `handle_data.clear_project_default_if_inside`: unset the project default
interpreter when it is truthy and lexically inside the given root path. -/
def clear_project_default_if_inside (abspath : String → String)
    (path_root : String) (project_default : Option String) : Option String :=
  match project_default with
  | some cur =>
      if strTruthy cur ∧ insideVenv abspath path_root cur then none else some cur
  | none => none

/-- The registry/config update of `main.cmd_remove_venv` after the directory
tree was deleted (confirmation given, `shutil.rmtree` succeeded).  The whole
update is guarded by the truthiness of the interpreter list: when it is
`None` or empty, nothing is touched and nothing is saved.  Otherwise the
entries inside `venv_dir` are filtered out, the global default is reassigned
to the head of the remaining list (or `None`) when it was truthy and inside
`venv_dir`, the registry is saved, and the project-local default is cleared
when it pointed inside.  Returns (registry, project default, registry
saved). -/
def cmd_remove_venv_update (abspath : String → String) (venv_dir : String)
    (st : InterpretersData) (project_default : Option String) :
    InterpretersData × Option String × Bool :=
  if (st.interpreters.getD []).isEmpty then (st, project_default, false)
  else
    let new_list := (st.interpreters.getD []).filter
      (fun p => !(insideVenv abspath venv_dir p))
    let default' :=
      match st.default_interpreter with
      | some d =>
          if strTruthy d ∧ insideVenv abspath venv_dir d then new_list.head?
          else some d
      | none => none
    (⟨some new_list, default'⟩,
     clear_project_default_if_inside abspath venv_dir project_default, true)

/-! ## Helper lemmas -/

theorem installLoop_dry_run (execProc : List String → ProcResult)
    (isfile : String → Bool) (absI : String) (ps : List PkgEntry) :
    ∀ (out err : List String) (sp : List (List String)),
    installLoop execProc isfile absI true ps out err sp =
      ⟨true, out ++ ps.filterMap (fun e => (entryCmd absI e).map dryRunMsg),
       err, sp⟩ := by
  induction ps with
  | nil => intro out err sp; simp [installLoop]
  | cons e rest ih =>
      intro out err sp
      cases hef : entryFields e with
      | none => simp [installLoop, hef, ih, entryCmd]
      | some pa => simp [installLoop, hef, ih, entryCmd]

theorem entryFields_isSome_of_ne_other (e : PkgEntry) (h : e ≠ PkgEntry.other) :
    (entryFields e).isSome := by
  cases e with
  | pstr s => simp [entryFields]
  | pdict packages package args => simp [entryFields]
  | other => exact absurd rfl h

theorem filterMap_dry_length (absI : String) (ps : List PkgEntry)
    (h : ∀ e ∈ ps, e ≠ PkgEntry.other) :
    (ps.filterMap (fun e => (entryCmd absI e).map dryRunMsg)).length = ps.length := by
  induction ps with
  | nil => simp
  | cons e rest ih =>
      obtain ⟨pa, hpa⟩ := Option.isSome_iff_exists.mp
        (entryFields_isSome_of_ne_other e (h e (by simp)))
      simp [List.filterMap_cons, entryCmd, hpa,
        ih (fun x hx => h x (List.mem_cons_of_mem e hx))]
      exact fun a ha => entryFields_isSome_of_ne_other a (h a (List.mem_cons_of_mem e ha))

theorem entryCmd_eq_some (absI : String) (e : PkgEntry) (c : List String)
    (h : entryCmd absI e = some c) :
    ∃ pa, entryFields e = some pa ∧
      [absI, "-m", "pip", "install"] ++ pa.1 ++ pa.2 = c := by
  unfold entryCmd at h
  cases hef : entryFields e with
  | none => rw [hef] at h; simp at h
  | some pa => exact ⟨pa, rfl, by rw [hef] at h; simpa using h⟩

theorem installLoop_first_failure (execProc : List String → ProcResult)
    (isfile : String → Bool) (absI : String)
    (fe : PkgEntry) (fc : List String) (post : List PkgEntry)
    (hfile : isfile absI = true)
    (hfc : entryCmd absI fe = some fc)
    (hfail : (∃ rc lines, execProc fc = ProcResult.ok rc lines ∧ rc ≠ 0) ∨
             (∃ msg, execProc fc = ProcResult.exn msg)) :
    ∀ (pre : List PkgEntry) (out : List String) (sp : List (List String)),
    (∀ e ∈ pre, ∃ c, entryCmd absI e = some c ∧
        ∃ lines, execProc c = ProcResult.ok 0 lines) →
    installLoop execProc isfile absI false (pre ++ fe :: post) out [] sp =
      ⟨false,
       out ++ pre.map (entryOutStr execProc absI) ++
         (match execProc fc with
          | ProcResult.ok _ lines => [String.intercalate "\n" lines]
          | ProcResult.exn _ => []),
       (match execProc fc with
        | ProcResult.ok rc _ => ["Command exited with " ++ toString rc]
        | ProcResult.exn msg => [msg]),
       sp ++ pre.map (fun e => (entryCmd absI e).getD []) ++ [fc]⟩ := by
  intro pre
  induction pre with
  | nil =>
      intro out sp _
      obtain ⟨pa, hpa, hcmd⟩ := entryCmd_eq_some absI fe fc hfc
      subst hcmd
      rcases hfail with ⟨rc, lines, hexec, hrc⟩ | ⟨msg, hexec⟩
      · simp only [List.cons_append, List.nil_append] at hexec
        simp [installLoop, hpa, hfile, hexec, hrc]
      · simp only [List.cons_append, List.nil_append] at hexec
        simp [installLoop, hpa, hfile, hexec]
  | cons e pre' ih =>
      intro out sp hpre
      obtain ⟨c, hce, lines, h0⟩ := hpre e (by simp)
      obtain ⟨pa, hpa, hcmd⟩ := entryCmd_eq_some absI e c hce
      subst hcmd
      simp only [List.cons_append, List.nil_append] at h0
      have hrec := ih (out ++ [String.intercalate "\n" lines])
        (sp ++ [absI :: "-m" :: "pip" :: "install" :: (pa.1 ++ pa.2)])
        (fun x hx => hpre x (List.mem_cons_of_mem e hx))
      simp [installLoop, hpa, hfile, h0, hrec, entryOutStr, hce]

/-! ## Claims -/

/-- C1 counterexample: the claim fails on the code in two ways.  With the
explicit argument absent and the project default set to `/p`, the
interactive chooser returns the first registered interpreter `/a` (not the
project default) when the user types `1`; and an explicitly provided
empty-string interpreter argument is not returned verbatim — Python
truthiness treats it as absent, so the project default is returned
instead. -/
theorem C1_counterexample :
    choose_interpreter none (some "/p")
      ⟨some ["/a", "/b"], some "/g"⟩ "1" = some "/a" ∧
    ¬ choose_interpreter none (some "/p")
      ⟨some ["/a", "/b"], some "/g"⟩ "1" = some "/p" ∧
    choose_interpreter (some "") (some "/p")
      ⟨some ["/a", "/b"], some "/g"⟩ "" = some "/p" ∧
    ¬ choose_interpreter (some "") (some "/p")
      ⟨some ["/a", "/b"], some "/g"⟩ "" = some "" := by
  decide

/-- C1 (amended): a nonempty explicit interpreter argument is returned
verbatim with no existence check, regardless of project or global defaults
and of the user's input (an empty-string argument is treated as absent).
With the explicit argument absent and a nonempty project-local default set,
the non-interactive resolution of the install command returns the project
default even when the global default differs, and the interactive chooser
returns it when the user accepts the default with empty input. -/
theorem C1_resolution_precedence (e p : String) (he : e ≠ "") (hp : p ≠ "")
    (project_default global_default : Option String) (st : InterpretersData)
    (user_input : String) (sys_executable : String) :
    choose_interpreter (some e) project_default st user_input = some e ∧
    choose_interpreter none (some p) st "" = some p ∧
    cmd_install_resolve (some e) project_default global_default sys_executable
      = some e ∧
    cmd_install_resolve none (some p) global_default sys_executable = some p := by
  have h0 : pyStrip "" = "" := rfl
  refine ⟨?_, ?_, ?_, ?_⟩
  · simp [choose_interpreter, optTruthy, strTruthy, he]
  · simp [choose_interpreter, optTruthy, strTruthy, hp, h0]
  · simp [cmd_install_resolve, optTruthy, strTruthy, he]
  · simp [cmd_install_resolve, optTruthy, strTruthy, hp]

/-- Witness for C1 (amended) at concrete inputs: explicit `/x`, project
default `/p`, global default `/g`, one registered interpreter, user input
`1`. -/
theorem C1_resolution_precedence_witness :
    choose_interpreter (some "/x") (some "/p")
      ⟨some ["/a"], some "/g"⟩ "1" = some "/x" ∧
    choose_interpreter none (some "/p") ⟨some ["/a"], some "/g"⟩ "" = some "/p" ∧
    cmd_install_resolve (some "/x") (some "/p") (some "/g") "/sys" = some "/x" ∧
    cmd_install_resolve none (some "/p") (some "/g") "/sys" = some "/p" :=
  C1_resolution_precedence "/x" "/p" (by decide) (by decide) (some "/p")
    (some "/g") ⟨some ["/a"], some "/g"⟩ "1" "/sys"

/-- C2: for every package specification list and every entry in it that
fails (non-zero exit code or spawn exception), a non-dry-run install returns
failure immediately, never attempts any later entry in the list (the spawn
trace is exactly the commands of the preceding entries plus the failing
command), and the returned combined stdout still contains the accumulated
output of all attempted entries including the failing one (a spawn exception
produces no output); the returned error identifies the first failing entry
only. -/
theorem C2_abort_on_first_failure (execProc : List String → ProcResult)
    (isfile : String → Bool) (abspath : String → String) (interpreter : String)
    (pre post : List PkgEntry) (fe : PkgEntry) (fc : List String)
    (hfile : isfile (abspath interpreter) = true)
    (hpre : ∀ e ∈ pre, ∃ c, entryCmd (abspath interpreter) e = some c ∧
        ∃ lines, execProc c = ProcResult.ok 0 lines)
    (hfc : entryCmd (abspath interpreter) fe = some fc)
    (hfail : (∃ rc lines, execProc fc = ProcResult.ok rc lines ∧ rc ≠ 0) ∨
             (∃ msg, execProc fc = ProcResult.exn msg)) :
    (install_packages execProc isfile abspath interpreter (pre ++ fe :: post)
        false).success = false ∧
    (install_packages execProc isfile abspath interpreter (pre ++ fe :: post)
        false).spawned =
      pre.map (fun e => (entryCmd (abspath interpreter) e).getD []) ++ [fc] ∧
    (install_packages execProc isfile abspath interpreter (pre ++ fe :: post)
        false).all_stdout =
      pre.map (entryOutStr execProc (abspath interpreter)) ++
        (match execProc fc with
         | ProcResult.ok _ lines => [String.intercalate "\n" lines]
         | ProcResult.exn _ => []) ∧
    (install_packages execProc isfile abspath interpreter (pre ++ fe :: post)
        false).all_stderr =
      (match execProc fc with
       | ProcResult.ok rc _ => ["Command exited with " ++ toString rc]
       | ProcResult.exn msg => [msg]) := by
  unfold install_packages
  rw [installLoop_first_failure execProc isfile (abspath interpreter) fe fc post
    hfile hfc hfail pre [] [] hpre]
  exact ⟨rfl, by simp, by simp, rfl⟩

/-- Witness for C2: a three-entry list whose second entry exits with code 1;
the third is never spawned, and stdout keeps the first two entries' output. -/
theorem C2_abort_on_first_failure_witness :
    (install_packages
      (fun c => if c = ["/py", "-m", "pip", "install", "b"]
                then ProcResult.ok 1 ["boom"] else ProcResult.ok 0 ["fine"])
      (fun _ => true) id "/py"
      ([PkgEntry.pstr "a"] ++ PkgEntry.pstr "b" :: [PkgEntry.pstr "c"])
      false).success = false ∧
    (install_packages
      (fun c => if c = ["/py", "-m", "pip", "install", "b"]
                then ProcResult.ok 1 ["boom"] else ProcResult.ok 0 ["fine"])
      (fun _ => true) id "/py"
      ([PkgEntry.pstr "a"] ++ PkgEntry.pstr "b" :: [PkgEntry.pstr "c"])
      false).spawned =
      [["/py", "-m", "pip", "install", "a"], ["/py", "-m", "pip", "install", "b"]] ∧
    (install_packages
      (fun c => if c = ["/py", "-m", "pip", "install", "b"]
                then ProcResult.ok 1 ["boom"] else ProcResult.ok 0 ["fine"])
      (fun _ => true) id "/py"
      ([PkgEntry.pstr "a"] ++ PkgEntry.pstr "b" :: [PkgEntry.pstr "c"])
      false).all_stdout = ["fine", "boom"] ∧
    (install_packages
      (fun c => if c = ["/py", "-m", "pip", "install", "b"]
                then ProcResult.ok 1 ["boom"] else ProcResult.ok 0 ["fine"])
      (fun _ => true) id "/py"
      ([PkgEntry.pstr "a"] ++ PkgEntry.pstr "b" :: [PkgEntry.pstr "c"])
      false).all_stderr = ["Command exited with 1"] := by
  have h := C2_abort_on_first_failure
    (fun c => if c = ["/py", "-m", "pip", "install", "b"]
              then ProcResult.ok 1 ["boom"] else ProcResult.ok 0 ["fine"])
    (fun _ => true) id "/py" [PkgEntry.pstr "a"] [PkgEntry.pstr "c"]
    (PkgEntry.pstr "b") ["/py", "-m", "pip", "install", "b"] rfl
    (by
      intro e he
      rw [List.mem_singleton] at he
      subst he
      exact ⟨["/py", "-m", "pip", "install", "a"], rfl, ["fine"], by decide⟩)
    rfl
    (Or.inl ⟨1, ["boom"], by decide, by decide⟩)
  exact ⟨h.1, by rw [h.2.1]; decide, by rw [h.2.2.1]; decide, by rw [h.2.2.2]; decide⟩

/-- C3: for every package specification list and every interpreter path
(whether or not it exists on disk), installation with `dry_run = true` never
spawns a subprocess, appends one synthesized command description per entry,
and always returns success. -/
theorem C3_dry_run_never_spawns (execProc : List String → ProcResult)
    (isfile : String → Bool) (abspath : String → String) (interpreter : String)
    (packages : List PkgEntry)
    (hvalid : ∀ e ∈ packages, e ≠ PkgEntry.other) :
    (install_packages execProc isfile abspath interpreter packages true).success = true ∧
    (install_packages execProc isfile abspath interpreter packages true).spawned = [] ∧
    (install_packages execProc isfile abspath interpreter packages true).all_stdout =
      packages.filterMap (fun e => (entryCmd (abspath interpreter) e).map dryRunMsg) ∧
    (install_packages execProc isfile abspath interpreter packages true).all_stdout.length =
      packages.length := by
  unfold install_packages
  rw [installLoop_dry_run execProc isfile (abspath interpreter) packages [] [] []]
  exact ⟨rfl, rfl, by simp, by simp [filterMap_dry_length _ _ hvalid]⟩

/-- Witness for C3: a two-entry list (one plain, one compound) with a
filesystem on which the interpreter does not exist. -/
theorem C3_dry_run_never_spawns_witness :
    (install_packages (fun _ => ProcResult.ok 0 []) (fun _ => false) id
      "/usr/bin/python3"
      [PkgEntry.pstr "numpy",
       PkgEntry.pdict (some (Sum.inr ["torch", "torchvision"])) none
         (some ["--index-url", "https://x"])] true).success = true ∧
    (install_packages (fun _ => ProcResult.ok 0 []) (fun _ => false) id
      "/usr/bin/python3"
      [PkgEntry.pstr "numpy",
       PkgEntry.pdict (some (Sum.inr ["torch", "torchvision"])) none
         (some ["--index-url", "https://x"])] true).spawned = [] ∧
    (install_packages (fun _ => ProcResult.ok 0 []) (fun _ => false) id
      "/usr/bin/python3"
      [PkgEntry.pstr "numpy",
       PkgEntry.pdict (some (Sum.inr ["torch", "torchvision"])) none
         (some ["--index-url", "https://x"])] true).all_stdout.length = 2 :=
  have h := C3_dry_run_never_spawns (fun _ => ProcResult.ok 0 []) (fun _ => false) id
    "/usr/bin/python3"
    [PkgEntry.pstr "numpy",
     PkgEntry.pdict (some (Sum.inr ["torch", "torchvision"])) none
       (some ["--index-url", "https://x"])] (by decide)
  ⟨h.1, h.2.1, h.2.2.2⟩

/-- C4: for every successful non-dry-run venv creation where the new
environment's interpreter executable exists on disk, that interpreter path
is inserted at the front of the global interpreter list if not already
present, the registry is persisted, and it becomes the project-local default
interpreter, while the global `default_interpreter` field is left
unchanged. -/
theorem C4_create_venv_registers (pathExists : String → Bool)
    (abspath : String → String) (isWin : Bool) (venv_dir : String)
    (st : InterpretersData) (project_default : Option String) (procOk : Bool)
    (hok : procOk = true)
    (hexists : pathExists (abspath (venv_python_of isWin venv_dir)) = true) :
    (create_venv procOk false pathExists abspath isWin venv_dir st
        project_default).1 = true ∧
    (create_venv procOk false pathExists abspath isWin venv_dir st
        project_default).2.1.interpreters =
      some (if abspath (venv_python_of isWin venv_dir) ∈ st.interpreters.getD []
            then st.interpreters.getD []
            else abspath (venv_python_of isWin venv_dir) ::
              st.interpreters.getD []) ∧
    (create_venv procOk false pathExists abspath isWin venv_dir st
        project_default).2.1.default_interpreter = st.default_interpreter ∧
    (create_venv procOk false pathExists abspath isWin venv_dir st
        project_default).2.2.1 =
      some (abspath (venv_python_of isWin venv_dir)) ∧
    (create_venv procOk false pathExists abspath isWin venv_dir st
        project_default).2.2.2 = true := by
  subst hok
  cases hint : st.interpreters with
  | none => simp [create_venv, create_venv_register, hexists, hint]
  | some l =>
      by_cases hm : abspath (venv_python_of isWin venv_dir) ∈ l <;>
        simp [create_venv, create_venv_register, hexists, hint, hm]

/-- Witness for C4: a registry holding `/usr/bin/python3` as sole
interpreter and global default; creating `/proj/venv` on a POSIX filesystem
where the venv python exists puts `/proj/venv/bin/python` at the front of the
list, persists, sets it as the project default, and keeps the global
default. -/
theorem C4_create_venv_registers_witness :
    (create_venv true false (fun _ => true) id false "/proj/venv"
        ⟨some ["/usr/bin/python3"], some "/usr/bin/python3"⟩ none).1 = true ∧
    (create_venv true false (fun _ => true) id false "/proj/venv"
        ⟨some ["/usr/bin/python3"], some "/usr/bin/python3"⟩ none).2.1.interpreters =
      some ["/proj/venv/bin/python", "/usr/bin/python3"] ∧
    (create_venv true false (fun _ => true) id false "/proj/venv"
        ⟨some ["/usr/bin/python3"], some "/usr/bin/python3"⟩ none).2.1.default_interpreter =
      some "/usr/bin/python3" ∧
    (create_venv true false (fun _ => true) id false "/proj/venv"
        ⟨some ["/usr/bin/python3"], some "/usr/bin/python3"⟩ none).2.2.1 =
      some "/proj/venv/bin/python" ∧
    (create_venv true false (fun _ => true) id false "/proj/venv"
        ⟨some ["/usr/bin/python3"], some "/usr/bin/python3"⟩ none).2.2.2 = true :=
  have h := C4_create_venv_registers (fun _ => true) id false "/proj/venv"
    ⟨some ["/usr/bin/python3"], some "/usr/bin/python3"⟩ none true rfl rfl
  ⟨h.1, by rw [h.2.1]; decide, h.2.2.1, h.2.2.2.1, h.2.2.2.2⟩

/-- C5 counterexample: with the global interpreter list unset (`null` in the
JSON file) and the global default interpreter pointing inside the venv being
removed, the entire post-deletion update is skipped by the truthiness guard:
the deleted path stays as the global default and the project-local default
is not cleared. -/
theorem C5_counterexample :
    (cmd_remove_venv_update id "/proj/venv_test"
        ⟨none, some "/proj/venv_test/bin/python"⟩
        (some "/proj/venv_test/bin/python")).1.default_interpreter =
      some "/proj/venv_test/bin/python" ∧
    insideVenv id "/proj/venv_test" "/proj/venv_test/bin/python" = true ∧
    (cmd_remove_venv_update id "/proj/venv_test"
        ⟨none, some "/proj/venv_test/bin/python"⟩
        (some "/proj/venv_test/bin/python")).2.1 =
      some "/proj/venv_test/bin/python" := by
  decide

/-- C5 (amended): for every confirmed remove-venv invocation that deletes
the directory, provided the global interpreter list is non-empty at the time
of removal, afterwards the global interpreter list contains no path lexically
inside the removed venv directory, the global default interpreter is never a
(nonempty) path inside the deleted tree — when it was one, it is reassigned
to the head of the remaining registered interpreters or to none — and the
project-local default is cleared if it pointed inside the deleted tree; the
registry is persisted.  (When the list is empty or unset nothing is touched;
see C10.) -/
theorem C5_remove_venv_cleanup (abspath : String → String) (venv_dir : String)
    (st : InterpretersData) (project_default : Option String)
    (hne : (st.interpreters.getD []).isEmpty = false) :
    (∀ q ∈ (cmd_remove_venv_update abspath venv_dir st
        project_default).1.interpreters.getD [],
      insideVenv abspath venv_dir q = false) ∧
    ((optTruthy st.default_interpreter = true ∧
        insideVenv abspath venv_dir (st.default_interpreter.getD "") = true) →
      (cmd_remove_venv_update abspath venv_dir st
          project_default).1.default_interpreter =
        ((st.interpreters.getD []).filter
          (fun p => !(insideVenv abspath venv_dir p))).head?) ∧
    (∀ d, (cmd_remove_venv_update abspath venv_dir st
        project_default).1.default_interpreter = some d →
      d ≠ "" → insideVenv abspath venv_dir d = false) ∧
    ((optTruthy project_default = true ∧
        insideVenv abspath venv_dir (project_default.getD "") = true) →
      (cmd_remove_venv_update abspath venv_dir st project_default).2.1 = none) ∧
    (cmd_remove_venv_update abspath venv_dir st project_default).2.2 = true := by
  have hmem : ∀ q ∈ (st.interpreters.getD []).filter
      (fun p => !(insideVenv abspath venv_dir p)),
      insideVenv abspath venv_dir q = false := by
    intro q hq
    simpa using (List.mem_filter.mp hq).2
  refine ⟨?_, ?_, ?_, ?_, ?_⟩
  · intro q hq
    simp only [cmd_remove_venv_update, hne, Bool.false_eq_true, if_false] at hq
    exact hmem q hq
  · rintro ⟨htruthy, hinside⟩
    cases hd : st.default_interpreter with
    | none => simp [optTruthy, hd] at htruthy
    | some d0 =>
        have hst : strTruthy d0 = true := by simpa [optTruthy, hd] using htruthy
        have hin : insideVenv abspath venv_dir d0 = true := by
          simpa [hd] using hinside
        simp [cmd_remove_venv_update, hne, hd, hst, hin]
  · intro d hdef hdne
    simp only [cmd_remove_venv_update, hne, Bool.false_eq_true, if_false] at hdef
    cases hd : st.default_interpreter with
    | none => rw [hd] at hdef; simp at hdef
    | some d0 =>
        rw [hd] at hdef
        have hdef2 : (if strTruthy d0 = true ∧ insideVenv abspath venv_dir d0 = true
            then ((st.interpreters.getD []).filter
              (fun p => !(insideVenv abspath venv_dir p))).head?
            else some d0) = some d := hdef
        by_cases hc : strTruthy d0 = true ∧ insideVenv abspath venv_dir d0 = true
        · rw [if_pos hc] at hdef2
          cases hl : (st.interpreters.getD []).filter
              (fun p => !(insideVenv abspath venv_dir p)) with
          | nil => rw [hl] at hdef2; simp at hdef2
          | cons q r =>
              rw [hl] at hdef2
              simp only [List.head?_cons, Option.some.injEq] at hdef2
              subst hdef2
              exact hmem q (by rw [hl]; exact List.mem_cons_self q r)
        · rw [if_neg hc] at hdef2
          simp only [Option.some.injEq] at hdef2
          subst hdef2
          rcases not_and_or.mp hc with h1 | h2
          · exact absurd (by simpa [strTruthy] using hdne) h1
          · simpa using h2
  · rintro ⟨htruthy, hinside⟩
    cases hp : project_default with
    | none => simp [optTruthy, hp] at htruthy
    | some cur =>
        have hst : strTruthy cur = true := by simpa [optTruthy, hp] using htruthy
        have hin : insideVenv abspath venv_dir cur = true := by
          simpa [hp] using hinside
        simp [cmd_remove_venv_update, hne, clear_project_default_if_inside,
          hp, hst, hin]
  · simp [cmd_remove_venv_update, hne]

/-- Witness for C5 (amended): removing `/proj/venv_test` from a registry
listing the venv python and `/usr/bin/python3`, with both defaults pointing
inside the venv: the venv entry is dropped, the global default is reassigned
to `/usr/bin/python3`, and the project default is cleared. -/
theorem C5_remove_venv_cleanup_witness :
    (cmd_remove_venv_update id "/proj/venv_test"
        ⟨some ["/proj/venv_test/bin/python", "/usr/bin/python3"],
         some "/proj/venv_test/bin/python"⟩
        (some "/proj/venv_test/bin/python")).1.default_interpreter =
      some "/usr/bin/python3" ∧
    insideVenv id "/proj/venv_test" "/usr/bin/python3" = false ∧
    (cmd_remove_venv_update id "/proj/venv_test"
        ⟨some ["/proj/venv_test/bin/python", "/usr/bin/python3"],
         some "/proj/venv_test/bin/python"⟩
        (some "/proj/venv_test/bin/python")).2.1 = none :=
  have h := C5_remove_venv_cleanup id "/proj/venv_test"
    ⟨some ["/proj/venv_test/bin/python", "/usr/bin/python3"],
     some "/proj/venv_test/bin/python"⟩
    (some "/proj/venv_test/bin/python") (by decide)
  ⟨by rw [h.2.1 (by decide)]; decide,
   h.2.2.1 "/usr/bin/python3" (by decide) (by decide),
   h.2.2.2.1 (by decide)⟩

/-- C6 counterexample: after `template add "ml"` with the packages entered
as `numpy pandas` (and no special args), the template stores each package as
its own plain-string entry, so `install ml --dry-run` with interpreter
`/usr/bin/python3` emits two synthesized command lines, not one. -/
theorem C6_counterexample :
    (cmd_install (cmd_template_add [] "ml" [("numpy pandas", "")]).2.1 "ml"
        (some "/usr/bin/python3") none none "/sys"
        (fun _ => ProcResult.ok 0 []) (fun _ => false) id true).1 = 0 ∧
    ((cmd_install (cmd_template_add [] "ml" [("numpy pandas", "")]).2.1 "ml"
        (some "/usr/bin/python3") none none "/sys"
        (fun _ => ProcResult.ok 0 []) (fun _ => false) id
        true).2.getD ⟨false, [], [], []⟩).all_stdout.length = 2 ∧
    ¬ ((cmd_install (cmd_template_add [] "ml" [("numpy pandas", "")]).2.1 "ml"
        (some "/usr/bin/python3") none none "/sys"
        (fun _ => ProcResult.ok 0 []) (fun _ => false) id
        true).2.getD ⟨false, [], [], []⟩).all_stdout.length = 1 := by
  decide

/-- C6 (amended): after `template add "ml"` with packages `numpy pandas`,
running `install ml --dry-run` with interpreter `/usr/bin/python3` returns
success (exit code 0), spawns no subprocess, and emits exactly two
synthesized command lines — one per package, each the Python list
representation of `[/usr/bin/python3, -m, pip, install, <pkg>]` prefixed by
`DRY RUN: would run: `. -/
theorem C6_dry_run_two_lines :
    cmd_install (cmd_template_add [] "ml" [("numpy pandas", "")]).2.1 "ml"
        (some "/usr/bin/python3") none none "/sys"
        (fun _ => ProcResult.ok 0 []) (fun _ => false) id true =
      (0, some ⟨true,
        [dryRunMsg ["/usr/bin/python3", "-m", "pip", "install", "numpy"],
         dryRunMsg ["/usr/bin/python3", "-m", "pip", "install", "pandas"]],
        [], []⟩) := by
  decide

/-- C7: on every load of the global interpreter registry where
`default_interpreter` is unset and the currently running interpreter's path
is nonempty and exists on disk, the registry is migrated: the current
interpreter path is inserted into the interpreters list if absent (at the
front), becomes the `default_interpreter`, and the registry is persisted to
disk immediately. -/
theorem C7_init_migration
    (fileContents : Option (Option (List String) × Option String))
    (sys_executable : String) (isfile : String → Bool)
    (hunset : (loadInterpretersFile fileContents).default_interpreter = none)
    (hne : sys_executable ≠ "") (hfile : isfile sys_executable = true) :
    (InterpretersData.init fileContents sys_executable isfile).1.interpreters =
      some (if sys_executable ∈
              (loadInterpretersFile fileContents).interpreters.getD []
            then (loadInterpretersFile fileContents).interpreters.getD []
            else sys_executable ::
              (loadInterpretersFile fileContents).interpreters.getD []) ∧
    sys_executable ∈
      (InterpretersData.init fileContents sys_executable
        isfile).1.interpreters.getD [] ∧
    (InterpretersData.init fileContents sys_executable
        isfile).1.default_interpreter = some sys_executable ∧
    (InterpretersData.init fileContents sys_executable isfile).2 = true := by
  cases hint : (loadInterpretersFile fileContents).interpreters with
  | none =>
      simp [InterpretersData.init, optTruthy, strTruthy, hunset, hne, hfile, hint]
  | some l =>
      by_cases hm : sys_executable ∈ l <;>
        simp [InterpretersData.init, optTruthy, strTruthy, hunset, hne, hfile,
          hint, hm]

/-- Witness for C7: a registry file holding one interpreter and no default;
loading with the running executable `/sys/python` present on disk seeds it
at the front of the list, makes it the default, and persists. -/
theorem C7_init_migration_witness :
    (InterpretersData.init (some (some ["/a"], none)) "/sys/python"
        (fun _ => true)).1.interpreters = some ["/sys/python", "/a"] ∧
    "/sys/python" ∈ (InterpretersData.init (some (some ["/a"], none))
        "/sys/python" (fun _ => true)).1.interpreters.getD [] ∧
    (InterpretersData.init (some (some ["/a"], none)) "/sys/python"
        (fun _ => true)).1.default_interpreter = some "/sys/python" ∧
    (InterpretersData.init (some (some ["/a"], none)) "/sys/python"
        (fun _ => true)).2 = true :=
  have h := C7_init_migration (some (some ["/a"], none)) "/sys/python"
    (fun _ => true) rfl (by decide) rfl
  ⟨by rw [h.1]; decide, h.2.1, h.2.2.1, h.2.2.2⟩

/-- C8: for every template name already present in the template registry,
adding a template with that name fails with a duplicate-name validation
error (exit code 2) and the stored template registry is not mutated (not
even saved); for every absent name, template removal fails with a not-found
error (exit code 2) and likewise leaves stored state unchanged. -/
theorem C8_template_validation (stored : Templates) (name_add name_rem : String)
    (inputs : List (String × String))
    (hdup : (stored.lookup name_add).isSome = true)
    (habs : (stored.lookup name_rem).isNone = true) :
    cmd_template_add stored name_add inputs = (2, stored, false) ∧
    cmd_template_remove stored name_rem = (2, stored, false) := by
  constructor
  · simp [cmd_template_add, hdup]
  · simp [cmd_template_remove, habs]

/-- Witness for C8: a registry holding template `ml`; adding `ml` again and
removing the absent `web` both exit with code 2 and leave the registry
unsaved and unchanged. -/
theorem C8_template_validation_witness :
    cmd_template_add [("ml", [PkgEntry.pstr "numpy"])] "ml" [("x", "")] =
      (2, [("ml", [PkgEntry.pstr "numpy"])], false) ∧
    cmd_template_remove [("ml", [PkgEntry.pstr "numpy"])] "web" =
      (2, [("ml", [PkgEntry.pstr "numpy"])], false) :=
  C8_template_validation [("ml", [PkgEntry.pstr "numpy"])] "ml" "web"
    [("x", "")] (by decide) (by decide)

/-- C9: adding an interpreter path is idempotent: for every registry state
(whose interpreter list, per the data-model invariant, holds at most one
occurrence of the path) and every path, running add-interpreter with a path
already in the interpreters list leaves the registry unchanged and unsaved,
the resulting list holds exactly one occurrence of the path with the
insertion order of existing entries preserved, the global default is
untouched, and adding the same path twice equals adding it once. -/
theorem C9_add_interpreter_idempotent (st : InterpretersData) (path : String) :
    (path ∈ st.interpreters.getD [] →
      cmd_add_interpreter st path = (st, false)) ∧
    ((st.interpreters.getD []).count path ≤ 1 →
      ((cmd_add_interpreter st path).1.interpreters.getD []).count path = 1) ∧
    (cmd_add_interpreter (cmd_add_interpreter st path).1 path =
      ((cmd_add_interpreter st path).1, false)) ∧
    (cmd_add_interpreter st path).1.interpreters =
      some (if path ∈ st.interpreters.getD [] then st.interpreters.getD []
            else st.interpreters.getD [] ++ [path]) ∧
    (cmd_add_interpreter st path).1.default_interpreter =
      st.default_interpreter := by
  obtain ⟨oi, od⟩ := st
  refine ⟨?_, ?_, ?_, ?_, ?_⟩
  · intro hmem
    cases oi with
    | none => simp at hmem
    | some l =>
        simp only [Option.getD_some] at hmem
        simp [cmd_add_interpreter, hmem]
  · intro hcount
    dsimp only at hcount
    by_cases hmem : path ∈ (Option.getD oi [])
    · have h1 : 1 ≤ (Option.getD oi []).count path := List.count_pos_iff.mpr hmem
      simp only [cmd_add_interpreter, hmem, if_pos, Option.getD_some]
      omega
    · have h0 : (Option.getD oi []).count path = 0 :=
        List.count_eq_zero.mpr hmem
      simp [cmd_add_interpreter, hmem, List.count_append, h0]
  · by_cases hmem : path ∈ (Option.getD oi [])
    · simp [cmd_add_interpreter, hmem]
    · simp [cmd_add_interpreter, hmem]
  · by_cases hmem : path ∈ (Option.getD oi []) <;>
      simp [cmd_add_interpreter, hmem]
  · by_cases hmem : path ∈ (Option.getD oi []) <;>
      simp [cmd_add_interpreter, hmem]

/-- Witness for C9: adding `/a` to a registry already holding it changes
nothing and saves nothing; one occurrence remains. -/
theorem C9_add_interpreter_idempotent_witness :
    ("/a" ∈ (InterpretersData.mk (some ["/a", "/b"])
      (some "/a")).interpreters.getD []) ∧
    cmd_add_interpreter ⟨some ["/a", "/b"], some "/a"⟩ "/a" =
      (⟨some ["/a", "/b"], some "/a"⟩, false) ∧
    ((cmd_add_interpreter ⟨some ["/a", "/b"], some "/a"⟩
      "/a").1.interpreters.getD []).count "/a" = 1 :=
  ⟨by decide,
   (C9_add_interpreter_idempotent ⟨some ["/a", "/b"], some "/a"⟩ "/a").1
     (by decide),
   (C9_add_interpreter_idempotent ⟨some ["/a", "/b"], some "/a"⟩ "/a").2.1
     (by decide)⟩

/-- C10: for every confirmed remove-venv invocation where the global
interpreter list is empty or unset at the time of removal, neither the
global default interpreter nor the project-local configuration is modified
(and nothing is saved), even if either points inside the deleted venv
directory: only the directory tree is deleted. -/
theorem C10_remove_venv_empty_noop (abspath : String → String)
    (venv_dir : String) (st : InterpretersData)
    (project_default : Option String)
    (hempty : (st.interpreters.getD []).isEmpty = true) :
    cmd_remove_venv_update abspath venv_dir st project_default =
      (st, project_default, false) := by
  simp [cmd_remove_venv_update, hempty]

/-- Witness for C10: with an empty (but present) interpreter list and both
defaults pointing inside `/v`, removing `/v` leaves registry and project
config untouched. -/
theorem C10_remove_venv_empty_noop_witness :
    ((InterpretersData.mk (some []) (some "/v/bin/python")).interpreters.getD
      []).isEmpty = true ∧
    insideVenv id "/v" "/v/bin/python" = true ∧
    cmd_remove_venv_update id "/v" ⟨some [], some "/v/bin/python"⟩
        (some "/v/bin/python") =
      (⟨some [], some "/v/bin/python"⟩, some "/v/bin/python", false) :=
  ⟨by decide, by decide,
   C10_remove_venv_empty_noop id "/v" ⟨some [], some "/v/bin/python"⟩
     (some "/v/bin/python") (by decide)⟩

end Pynstal
